import Mathlib

/-!
Verification of the `BusinessInfoSearchService` keyword / date-range search
(`src/modules/base-info/business-info/services/business-info-search.service.ts`)
against its specification.

The service is embedded shallowly:
* the WHERE clause assembled through the ORM query builder is represented
  syntactically (`OrCond`, `WhereCond`, `BuiltQuery`), mirroring the
  `where / andWhere(Brackets(orWhere ...)) / orderBy / skip / take` chain;
* the external Record Store is modelled as a list of records and `runQuery`
  gives the documented semantics of `getManyAndCount` (filter by the WHERE
  conditions, sort by the ORDER BY key, apply skip/take to the data while
  counting the unpaginated match set);
* SQL `LIKE` is modelled by `likeMatch` (case-sensitive, `%`/`_` wildcards);
* timestamps are ISO-8601 strings compared lexicographically (which agrees
  with instant order on equal-length ISO strings), `DATE(x)` is the first ten
  characters (the date-only portion).
-/

namespace BusinessInfoSearch

/-- The sole entity, `BusinessInfo`.  Text columns are strings; `createdAt`
and `updatedAt` are stored as ISO-8601 timestamp strings; `isDeleted` is the
soft-delete flag. -/
structure BusinessInfo where
  businessName : String
  businessNumber : String
  businessType : String
  businessCeo : String
  businessItem : String
  corporateRegistrationNumber : String
  businessTel : String
  businessMobile : String
  businessCeoEmail : String
  businessFax : String
  businessZipcode : String
  businessAddress : String
  businessAddressDetail : String
  isDeleted : Bool
  createdAt : String
  updatedAt : String
deriving DecidableEq, Repr

/-- The fixed field list `validFields` of the service, verbatim. -/
def validFields : List String :=
  [ "businessName",
    "businessNumber",
    "businessType",
    "businessCeo",
    "businessItem",
    "corporateRegistrationNumber",
    "businessTel",
    "businessMobile",
    "businessCeoEmail",
    "businessFax",
    "businessZipcode",
    "businessAddress",
    "businessAddressDetail",
    "createdAt",
    "updatedAt" ]

/-- Column lookup by field name, covering exactly the names in `validFields`. -/
def getField (r : BusinessInfo) : String → String
  | "businessName" => r.businessName
  | "businessNumber" => r.businessNumber
  | "businessType" => r.businessType
  | "businessCeo" => r.businessCeo
  | "businessItem" => r.businessItem
  | "corporateRegistrationNumber" => r.corporateRegistrationNumber
  | "businessTel" => r.businessTel
  | "businessMobile" => r.businessMobile
  | "businessCeoEmail" => r.businessCeoEmail
  | "businessFax" => r.businessFax
  | "businessZipcode" => r.businessZipcode
  | "businessAddress" => r.businessAddress
  | "businessAddressDetail" => r.businessAddressDetail
  | "createdAt" => r.createdAt
  | "updatedAt" => r.updatedAt
  | _ => ""

/-- Separator class (dash or slash) of the service's `datePattern` regex. -/
def isSep (c : Char) : Bool := c == '-' || c == '/'

/-- Numeric value of a digit run. -/
def digitsVal (cs : List Char) : Nat :=
  cs.foldl (fun a c => a * 10 + (c.toNat - '0'.toNat)) 0

/-- Structural match of the anchored regex "4 digits, separator, 1-2 digits,
separator, 1-2 digits" (separator a dash or slash), returning the
year/month/day digit groups on success.  Spanning maximal digit runs and then
checking their lengths is extensionally the same as the anchored regex, since
after each digit group the regex demands a separator (or the end). -/
def parseDateParts (s : String) : Option (Nat × Nat × Nat) :=
  let cs := s.toList
  let y := cs.takeWhile Char.isDigit
  match cs.dropWhile Char.isDigit with
  | s1 :: r2 =>
    if y.length == 4 && isSep s1 then
      let m := r2.takeWhile Char.isDigit
      match r2.dropWhile Char.isDigit with
      | s2 :: r4 =>
        if (m.length == 1 || m.length == 2) && isSep s2 then
          let d := r4.takeWhile Char.isDigit
          if (d.length == 1 || d.length == 2) && (r4.dropWhile Char.isDigit).isEmpty then
            some (digitsVal y, digitsVal m, digitsVal d)
          else none
        else none
      | [] => none
    else none
  | [] => none

/-- The service's `datePattern` regex (anchored: 4 digits, a dash or slash,
1-2 digits, a dash or slash, 1-2 digits) as a Boolean test
(`datePattern.test(s)`). -/
def datePattern (s : String) : Bool := (parseDateParts s).isSome

/-- `isDateSearch` of the service. -/
def isDateSearch (keyword : String) : Bool := datePattern keyword

/-- Left-pad to two digits. -/
def pad2 (n : Nat) : String := if n < 10 then "0" ++ toString n else toString n

/-- Left-pad to four digits. -/
def pad4 (n : Nat) : String :=
  if n < 10 then "000" ++ toString n
  else if n < 100 then "00" ++ toString n
  else if n < 1000 then "0" ++ toString n
  else toString n

/-- Modelled from the spec: the external date-parsing primitive
(`new Date(s).toISOString()`), which is not part of this repository.  Per the
spec a pattern-shaped date string is "parsed as local/ISO date, converted to a
normalized instant string"; this model renders the parsed year/month/day as a
UTC midnight instant (time zones are not modelled, and behaviour on
calendar-invalid input is delegated by the spec to the primitive, modelled
here as the same normalization). -/
def toISOString (s : String) : String :=
  match parseDateParts s with
  | some (y, m, d) => pad4 y ++ "-" ++ pad2 m ++ "-" ++ pad2 d ++ "T00:00:00.000Z"
  | none => "Invalid Date"

/-- Lexicographic comparison of character lists (the order used on ISO
timestamp strings, where it coincides with instant order). -/
def charListLe : List Char → List Char → Bool
  | [], _ => true
  | _ :: _, [] => false
  | a :: as, b :: bs => if a = b then charListLe as bs else decide (a < b)

/-- Lexicographic string comparison. -/
def strLe (a b : String) : Bool := charListLe a.toList b.toList

/-- Modelled from the spec: the external string-trimming primitive
(`keyword.trim()`), which removes leading and trailing whitespace. -/
def trimString (s : String) : String :=
  ((s.toList.dropWhile Char.isWhitespace).reverse.dropWhile Char.isWhitespace).reverse.asString

/-- Case-sensitive SQL `LIKE` matching over character lists: `%` matches any
run of characters, `_` matches exactly one character, any other pattern
character matches itself. -/
def likeMatch : List Char → List Char → Bool
  | [], s => s.isEmpty
  | '%' :: ps, s => s.tails.any fun t => likeMatch ps t
  | '_' :: ps, s =>
    match s with
    | [] => false
    | _ :: ss => likeMatch ps ss
  | p :: ps, s =>
    match s with
    | [] => false
    | c :: ss => (p == c) && likeMatch ps ss

/-- `value LIKE pattern`, on strings. -/
def likeMatches (pattern value : String) : Bool :=
  likeMatch pattern.toList value.toList

/-- The SQL `DATE(x)` date-only portion of an ISO timestamp string. -/
def datePart (s : String) : String := (s.toList.take 10).asString

/-- One clause of the bracketed OR group built inside `new Brackets(...)`. -/
inductive OrCond where
  | like (field : String) (pattern : String)
  | dateEq (field : String) (searchDate : String)
deriving DecidableEq, Repr

/-- One top-level (ANDed) WHERE condition of a built query. -/
inductive WhereCond where
  | isDeletedFalse
  | orBrackets (ors : List OrCond)
  | createdAtGe (startDate : String)
  | createdAtLe (endDate : String)
deriving DecidableEq, Repr

/-- The query assembled by the fluent builder chain: ANDed WHERE conditions,
an ORDER BY key and direction, and skip/take pagination. -/
structure BuiltQuery where
  whereConds : List WhereCond
  orderField : String
  orderDescending : Bool
  skipCount : Nat
  takeCount : Nat
deriving DecidableEq, Repr

/-- `addTextSearchConditions`: one `field LIKE %keyword%` OR clause per entry
of `validFields`. -/
def addTextSearchConditions (keyword : String) : List OrCond :=
  validFields.map fun field => OrCond.like field ("%" ++ keyword ++ "%")

/-- `addDateSearchConditions`: `DATE(createdAt) = DATE(:searchDate)` and
`DATE(updatedAt) = DATE(:searchDate)` where `searchDate = new Date(keyword)`. -/
def addDateSearchConditions (keyword : String) : List OrCond :=
  let searchDate := toISOString keyword
  [OrCond.dateEq "createdAt" searchDate, OrCond.dateEq "updatedAt" searchDate]

/-- The bracketed OR group of `search`: the 15 LIKE clauses, plus the two
date-equality clauses exactly when the keyword passes `isDateSearch`. -/
def searchOrGroup (keyword : String) : List OrCond :=
  addTextSearchConditions keyword ++
    (if isDateSearch keyword then addDateSearchConditions keyword else [])

/-- The query built by `search`: not-deleted AND the bracketed OR group,
ordered ascending by `businessName`, with `skip ((page-1)*limit)` and
`take limit`. -/
def buildSearchQuery (keyword : String) (page limit : Nat) : BuiltQuery :=
  let trimmedKeyword := trimString keyword
  let offset := (page - 1) * limit
  { whereConds := [WhereCond.isDeletedFalse, WhereCond.orBrackets (searchOrGroup trimmedKeyword)],
    orderField := "businessName",
    orderDescending := false,
    skipCount := offset,
    takeCount := limit }

/-- The query built by `searchByDateRange`: not-deleted AND
`createdAt >= toISOString startDate` AND `createdAt <= toISOString endDate`,
ordered descending by `createdAt`, with the same pagination. -/
def buildDateRangeQuery (startDate endDate : String) (page limit : Nat) : BuiltQuery :=
  let offset := (page - 1) * limit
  { whereConds := [WhereCond.isDeletedFalse,
      WhereCond.createdAtGe (toISOString startDate),
      WhereCond.createdAtLe (toISOString endDate)],
    orderField := "createdAt",
    orderDescending := true,
    skipCount := offset,
    takeCount := limit }

/-- Evaluation of one OR clause at a record. -/
def evalOrCond (r : BusinessInfo) : OrCond → Bool
  | OrCond.like field pat => likeMatches pat (getField r field)
  | OrCond.dateEq field searchDate => datePart (getField r field) == datePart searchDate

/-- Evaluation of one top-level WHERE condition at a record.  Timestamp
comparisons use the lexicographic string order, which coincides with instant
order on equal-length ISO strings. -/
def evalWhereCond (r : BusinessInfo) : WhereCond → Bool
  | WhereCond.isDeletedFalse => !r.isDeleted
  | WhereCond.orBrackets ors => ors.any (evalOrCond r)
  | WhereCond.createdAtGe v => strLe v r.createdAt
  | WhereCond.createdAtLe v => strLe r.createdAt v

/-- A record matches a query when it satisfies every ANDed WHERE condition. -/
def matchesQuery (q : BuiltQuery) (r : BusinessInfo) : Bool :=
  q.whereConds.all (evalWhereCond r)

/-- ORDER BY comparator of a query (non-strict, on the order key). -/
def recordLe (q : BuiltQuery) (a b : BusinessInfo) : Bool :=
  if q.orderDescending then strLe (getField b q.orderField) (getField a q.orderField)
  else strLe (getField a q.orderField) (getField b q.orderField)

/-- Stable sort of the match set by the ORDER BY comparator. -/
def sortRecords (q : BuiltQuery) (l : List BusinessInfo) : List BusinessInfo :=
  List.insertionSort (fun a b => recordLe q a b = true) l

/-- Modelled from the spec: the external Record Store collaborator (the ORM
and database behind `getManyAndCount`), which is not part of this repository.
It filters the store by the WHERE conditions, sorts by the ORDER BY key,
applies skip/take to the data, and counts the match set ignoring skip/take. -/
def runQuery (store : List BusinessInfo) (q : BuiltQuery) : List BusinessInfo × Nat :=
  let matched := store.filter (matchesQuery q)
  let sorted := sortRecords q matched
  ((sorted.drop q.skipCount).take q.takeCount, matched.length)

/-- Modelled from the spec: `DateFormatter.formatBusinessInfoArrayDates`
applied to one record (the `DateFormatter` utility is not part of this
repository).  Per the spec it renders exactly the `createdAt` and `updatedAt`
fields as display strings — through an externally configured rendering
function `render` — and alters no other field. -/
def formatBusinessInfoDates (render : String → String) (r : BusinessInfo) : BusinessInfo :=
  { r with createdAt := render r.createdAt, updatedAt := render r.updatedAt }

/-- Modelled from the spec: `DateFormatter.formatBusinessInfoArrayDates`,
applied uniformly to every record of a result array. -/
def formatBusinessInfoArrayDates (render : String → String)
    (rs : List BusinessInfo) : List BusinessInfo :=
  rs.map (formatBusinessInfoDates render)

/-- The `SearchResult` shape returned by both operations. -/
structure SearchResult where
  data : List BusinessInfo
  total : Nat
  page : Nat
  limit : Nat
deriving DecidableEq, Repr

/-- The `search` operation: trim the keyword, build the keyword query, run it,
and return the formatted page together with the unpaginated total and the
echoed `page` and `limit` (defaulting to 1 and 10). -/
def search (render : String → String) (store : List BusinessInfo)
    (keyword : String) (page : Nat := 1) (limit : Nat := 10) : SearchResult :=
  let q := buildSearchQuery keyword page limit
  let res := runQuery store q
  { data := formatBusinessInfoArrayDates render res.1,
    total := res.2,
    page := page,
    limit := limit }

/-- The exact `BadRequestException` message of `validateDateRange`. -/
def badRequestMessage : String :=
  "날짜 형식이 올바르지 않습니다. (YYYY-MM-DD 또는 YYYY/MM/DD)"

/-- `validateDateRange`: fails with the fixed message when either argument
fails the `datePattern` test (the thrown `BadRequestException` is modelled as
an `Except.error` carrying its message). -/
def validateDateRange (startDate endDate : String) : Except String Unit :=
  if !datePattern startDate || !datePattern endDate then Except.error badRequestMessage
  else Except.ok ()

/-- The successful branch of `searchByDateRange`: build the date-range query,
run it, format and return. -/
def dateRangeResult (render : String → String) (store : List BusinessInfo)
    (startDate endDate : String) (page limit : Nat) : SearchResult :=
  let q := buildDateRangeQuery startDate endDate page limit
  let res := runQuery store q
  { data := formatBusinessInfoArrayDates render res.1,
    total := res.2,
    page := page,
    limit := limit }

/-- The `searchByDateRange` operation: validate both date strings first (no
query is issued on failure), then run the date-range query. -/
def searchByDateRange (render : String → String) (store : List BusinessInfo)
    (startDate endDate : String) (page : Nat := 1) (limit : Nat := 10) :
    Except String SearchResult :=
  match validateDateRange startDate endDate with
  | Except.error e => Except.error e
  | Except.ok _ => Except.ok (dateRangeResult render store startDate endDate page limit)

/-- A concrete non-deleted record, used to instantiate theorems. -/
def sampleA : BusinessInfo :=
  { businessName := "Alpha Corp",
    businessNumber := "111-11-11111",
    businessType := "retail",
    businessCeo := "Kim",
    businessItem := "goods",
    corporateRegistrationNumber := "110111-1111111",
    businessTel := "02-111-1111",
    businessMobile := "010-1111-1111",
    businessCeoEmail := "alpha@example.com",
    businessFax := "02-111-1112",
    businessZipcode := "03187",
    businessAddress := "Seoul",
    businessAddressDetail := "Floor 1",
    isDeleted := false,
    createdAt := "2024-01-10T05:00:00.000Z",
    updatedAt := "2024-01-11T00:00:00.000Z" }

/-- A concrete soft-deleted record. -/
def sampleB : BusinessInfo :=
  { sampleA with
    businessName := "Beta LLC",
    isDeleted := true,
    createdAt := "2024-01-20T00:00:00.000Z" }

/-- A concrete non-deleted record created outside January 2024. -/
def sampleC : BusinessInfo :=
  { sampleA with
    businessName := "Gamma Inc",
    createdAt := "2024-02-05T00:00:00.000Z" }

/-- Whether a string has a whitespace character at its first or last
position. -/
def hasEdgeWhitespace (s : String) : Bool :=
  s.toList.head?.any Char.isWhitespace || s.toList.getLast?.any Char.isWhitespace

theorem charListLe_refl : ∀ l : List Char, charListLe l l = true
  | [] => rfl
  | a :: as => by simp [charListLe, charListLe_refl as]

theorem charListLe_total : ∀ a b : List Char, charListLe a b = true ∨ charListLe b a = true
  | [], _ => Or.inl rfl
  | _ :: _, [] => Or.inr rfl
  | x :: xs, y :: ys => by
    by_cases hxy : x = y
    · subst hxy
      simpa [charListLe] using charListLe_total xs ys
    · rcases lt_or_gt_of_ne hxy with h | h
      · exact Or.inl (by simp [charListLe, hxy, h])
      · exact Or.inr (by simp [charListLe, Ne.symm hxy, h])

theorem charListLe_trans :
    ∀ a b c : List Char, charListLe a b = true → charListLe b c = true → charListLe a c = true
  | [], _, _, _, _ => rfl
  | x :: xs, [], c, h1, _ => by simp [charListLe] at h1
  | x :: xs, y :: ys, [], _, h2 => by simp [charListLe] at h2
  | x :: xs, y :: ys, z :: zs, h1, h2 => by
    by_cases hxy : x = y <;> by_cases hyz : y = z
    · subst hxy; subst hyz
      simp only [charListLe, if_pos rfl] at h1 h2 ⊢
      exact charListLe_trans xs ys zs h1 h2
    · subst hxy
      simp only [charListLe, if_pos rfl, if_neg hyz, decide_eq_true_eq] at h1 h2 ⊢
      simp [charListLe, hyz, h2]
    · subst hyz
      simp only [charListLe, if_neg hxy, decide_eq_true_eq] at h1
      simp [charListLe, hxy, h1]
    · simp only [charListLe, if_neg hxy, if_neg hyz, decide_eq_true_eq] at h1 h2
      have hxz : x < z := lt_trans h1 h2
      simp [charListLe, ne_of_lt hxz, hxz]

theorem strLe_trans {a b c : String} (h1 : strLe a b = true) (h2 : strLe b c = true) :
    strLe a c = true :=
  charListLe_trans a.toList b.toList c.toList h1 h2

theorem strLe_total (a b : String) : strLe a b = true ∨ strLe b a = true :=
  charListLe_total a.toList b.toList

theorem recordLe_total (q : BuiltQuery) (a b : BusinessInfo) :
    recordLe q a b = true ∨ recordLe q b a = true := by
  unfold recordLe
  by_cases hd : q.orderDescending = true
  · simp only [if_pos hd]
    exact strLe_total _ _
  · simp only [if_neg hd]
    exact strLe_total _ _

theorem recordLe_trans (q : BuiltQuery) (a b c : BusinessInfo)
    (h1 : recordLe q a b = true) (h2 : recordLe q b c = true) : recordLe q a c = true := by
  unfold recordLe at h1 h2 ⊢
  by_cases hd : q.orderDescending = true
  · simp only [if_pos hd] at h1 h2 ⊢
    exact strLe_trans h2 h1
  · simp only [if_neg hd] at h1 h2 ⊢
    exact strLe_trans h1 h2

theorem pairwise_sortRecords (q : BuiltQuery) (l : List BusinessInfo) :
    (sortRecords q l).Pairwise (fun a b => recordLe q a b = true) := by
  haveI : IsTotal BusinessInfo (fun a b => recordLe q a b = true) :=
    ⟨fun a b => recordLe_total q a b⟩
  haveI : IsTrans BusinessInfo (fun a b => recordLe q a b = true) :=
    ⟨fun a b c => recordLe_trans q a b c⟩
  exact List.sorted_insertionSort _ l

theorem mem_sortRecords {q : BuiltQuery} {l : List BusinessInfo} {r : BusinessInfo} :
    r ∈ sortRecords q l ↔ r ∈ l :=
  (List.perm_insertionSort _ l).mem_iff

theorem runQuery_data_eq (store : List BusinessInfo) (q : BuiltQuery) :
    (runQuery store q).1 =
      ((sortRecords q (store.filter (matchesQuery q))).drop q.skipCount).take q.takeCount :=
  rfl

theorem runQuery_count_eq (store : List BusinessInfo) (q : BuiltQuery) :
    (runQuery store q).2 = (store.filter (matchesQuery q)).length :=
  rfl

theorem mem_runQuery_data {store : List BusinessInfo} {q : BuiltQuery} {r : BusinessInfo}
    (h : r ∈ (runQuery store q).1) : r ∈ store ∧ matchesQuery q r = true := by
  rw [runQuery_data_eq] at h
  exact List.mem_filter.mp
    (mem_sortRecords.mp (List.mem_of_mem_drop (List.mem_of_mem_take h)))

theorem pairwise_runQuery_data (store : List BusinessInfo) (q : BuiltQuery) :
    (runQuery store q).1.Pairwise (fun a b => recordLe q a b = true) := by
  rw [runQuery_data_eq]
  exact List.Pairwise.sublist ((List.take_sublist _ _).trans (List.drop_sublist _ _))
    (pairwise_sortRecords q _)

theorem runQuery_data_length (store : List BusinessInfo) (q : BuiltQuery) :
    (runQuery store q).1.length ≤ q.takeCount := by
  rw [runQuery_data_eq]
  exact List.length_take_le _ _

theorem likeMatch_star_cons (ps : List Char) (s : List Char) :
    likeMatch ('%' :: ps) s = s.tails.any fun t => likeMatch ps t :=
  rfl

theorem likeMatch_single_star (s : List Char) : likeMatch ['%'] s = true := by
  rw [likeMatch_star_cons, List.any_eq_true]
  refine ⟨[], ?_, rfl⟩
  simp [List.mem_tails]

theorem likeMatch_double_star (s : List Char) : likeMatch ['%', '%'] s = true := by
  rw [likeMatch_star_cons, List.any_eq_true]
  refine ⟨s, ?_, likeMatch_single_star s⟩
  simp [List.mem_tails]

theorem searchByDateRange_ok {render : String → String} {store : List BusinessInfo}
    {startDate endDate : String} {page limit : Nat} {res : SearchResult}
    (h : searchByDateRange render store startDate endDate page limit = Except.ok res) :
    res = dateRangeResult render store startDate endDate page limit := by
  unfold searchByDateRange at h
  cases hv : validateDateRange startDate endDate with
  | error e => rw [hv] at h; exact absurd h (by simp)
  | ok u => rw [hv] at h; simpa using h.symm

theorem matchesQuery_buildSearchQuery (keyword : String) (page limit : Nat) (r : BusinessInfo) :
    matchesQuery (buildSearchQuery keyword page limit) r =
      (!r.isDeleted && (searchOrGroup (trimString keyword)).any (evalOrCond r)) := by
  simp [matchesQuery, buildSearchQuery, evalWhereCond]

theorem matchesQuery_buildDateRangeQuery (startDate endDate : String) (page limit : Nat)
    (r : BusinessInfo) :
    matchesQuery (buildDateRangeQuery startDate endDate page limit) r =
      (!r.isDeleted && strLe (toISOString startDate) r.createdAt
        && strLe r.createdAt (toISOString endDate)) := by
  simp [matchesQuery, buildDateRangeQuery, evalWhereCond, Bool.and_assoc]

theorem isDeleted_false_of_mem_data {render : String → String} {store : List BusinessInfo}
    {q : BuiltQuery} {r : BusinessInfo}
    (hq : WhereCond.isDeletedFalse ∈ q.whereConds)
    (h : r ∈ (runQuery store q).1.map (formatBusinessInfoDates render)) :
    r.isDeleted = false := by
  rcases List.mem_map.mp h with ⟨r0, hr0, rfl⟩
  have hm := (mem_runQuery_data hr0).2
  have hall := List.all_eq_true.mp hm _ hq
  simp only [evalWhereCond, Bool.not_eq_true'] at hall
  simpa [formatBusinessInfoDates] using hall

/-- C1: for every keyword, `search` builds its filter as the not-deleted
condition ANDed with one bracketed OR group holding exactly 15 LIKE clauses —
one per field of the fixed field list, each matching `%trimmedKeyword%` —
and, exactly when the trimmed keyword passes the date pattern, two further OR
clauses comparing the date-only portion of `createdAt` resp. `updatedAt`
with the parsed keyword date; the OR group has 17 clauses in the date case
and 15 otherwise. -/
theorem claim_C1_filter_shape (keyword : String) (page limit : Nat) :
    (buildSearchQuery keyword page limit).whereConds =
      [WhereCond.isDeletedFalse,
        WhereCond.orBrackets
          ([OrCond.like "businessName" ("%" ++ trimString keyword ++ "%"),
            OrCond.like "businessNumber" ("%" ++ trimString keyword ++ "%"),
            OrCond.like "businessType" ("%" ++ trimString keyword ++ "%"),
            OrCond.like "businessCeo" ("%" ++ trimString keyword ++ "%"),
            OrCond.like "businessItem" ("%" ++ trimString keyword ++ "%"),
            OrCond.like "corporateRegistrationNumber" ("%" ++ trimString keyword ++ "%"),
            OrCond.like "businessTel" ("%" ++ trimString keyword ++ "%"),
            OrCond.like "businessMobile" ("%" ++ trimString keyword ++ "%"),
            OrCond.like "businessCeoEmail" ("%" ++ trimString keyword ++ "%"),
            OrCond.like "businessFax" ("%" ++ trimString keyword ++ "%"),
            OrCond.like "businessZipcode" ("%" ++ trimString keyword ++ "%"),
            OrCond.like "businessAddress" ("%" ++ trimString keyword ++ "%"),
            OrCond.like "businessAddressDetail" ("%" ++ trimString keyword ++ "%"),
            OrCond.like "createdAt" ("%" ++ trimString keyword ++ "%"),
            OrCond.like "updatedAt" ("%" ++ trimString keyword ++ "%")] ++
            (if datePattern (trimString keyword) then
              [OrCond.dateEq "createdAt" (toISOString (trimString keyword)),
                OrCond.dateEq "updatedAt" (toISOString (trimString keyword))]
            else [])) ]
    ∧ (addTextSearchConditions (trimString keyword)).length = 15
    ∧ (searchOrGroup (trimString keyword)).length =
        (if datePattern (trimString keyword) then 17 else 15) := by
  refine ⟨rfl, rfl, ?_⟩
  unfold searchOrGroup isDateSearch
  by_cases h : datePattern (trimString keyword) = true
  · simp [h, addDateSearchConditions, addTextSearchConditions, validFields]
  · simp [h, addTextSearchConditions, validFields]

/-- C2: `searchByDateRange` fails with the exact validation message if and
only if one of the two date strings fails the date-shape pattern; the failure
does not depend on the Record Store (no query is issued), and no calendar
validation is performed: the pattern-valid month-13 date passes
`validateDateRange`. -/
theorem claim_C2_validation (render : String → String) (store store2 : List BusinessInfo)
    (startDate endDate : String) (page limit : Nat) :
    (searchByDateRange render store startDate endDate page limit
        = Except.error badRequestMessage
      ↔ (datePattern startDate = false ∨ datePattern endDate = false))
    ∧ (searchByDateRange render store startDate endDate page limit
          = Except.error badRequestMessage →
        searchByDateRange render store2 startDate endDate page limit
          = Except.error badRequestMessage)
    ∧ datePattern "2024-13-01" = true
    ∧ validateDateRange "2024-13-01" "2024-01-31" = Except.ok () := by
  have key : ∀ st : List BusinessInfo,
      searchByDateRange render st startDate endDate page limit
          = Except.error badRequestMessage
        ↔ (datePattern startDate = false ∨ datePattern endDate = false) := by
    intro st
    unfold searchByDateRange validateDateRange
    cases hs : datePattern startDate <;> cases he : datePattern endDate <;> simp [hs, he]
  exact ⟨key store, fun h => (key store2).mpr ((key store).mp h), rfl, rfl⟩

theorem claim_C2_validation_witness :
    searchByDateRange id [sampleA] "2024-01-10" "2024-01-32x" 1 10
      = Except.error badRequestMessage :=
  (claim_C2_validation id [sampleA] [] "2024-01-10" "2024-01-32x" 1 10).1.mpr (Or.inr rfl)

/-- C3: no record with `isDeleted = true` ever appears in the data array
returned by `search` or by a successful `searchByDateRange`, for any input. -/
theorem claim_C3_not_deleted (render : String → String) (store : List BusinessInfo)
    (keyword startDate endDate : String) (page limit : Nat) (r : BusinessInfo)
    (res : SearchResult) :
    (r ∈ (search render store keyword page limit).data → r.isDeleted = false)
    ∧ (searchByDateRange render store startDate endDate page limit = Except.ok res →
        r ∈ res.data → r.isDeleted = false) := by
  constructor
  · intro h
    exact isDeleted_false_of_mem_data (q := buildSearchQuery keyword page limit)
      (by simp [buildSearchQuery]) h
  · intro hok h
    rw [searchByDateRange_ok hok] at h
    exact isDeleted_false_of_mem_data (q := buildDateRangeQuery startDate endDate page limit)
      (by simp [buildDateRangeQuery]) h

theorem claim_C3_not_deleted_witness :
    sampleA ∈ (search id [sampleA, sampleB] "" 1 10).data ∧ sampleA.isDeleted = false :=
  ⟨by decide,
    (claim_C3_not_deleted id [sampleA, sampleB] "" "2024-01-01" "2024-01-02" 1 10 sampleA
      ⟨[], 0, 0, 0⟩).1 (by decide)⟩

/-- C4: for page ≥ 1 and limit ≥ 1 both operations skip exactly
`(page-1)*limit` records of the ordered match set, return at most `limit`
records, report `total` as the unpaginated match count and echo `page` and
`limit`, which default to 1 and 10. -/
theorem claim_C4_pagination (render : String → String) (store : List BusinessInfo)
    (keyword startDate endDate : String) (page limit : Nat) (res : SearchResult)
    (hp : 1 ≤ page) (hl : 1 ≤ limit) :
    (search render store keyword page limit).data.length ≤ limit
    ∧ (search render store keyword page limit).page = page
    ∧ (search render store keyword page limit).limit = limit
    ∧ (search render store keyword page limit).total
        = (store.filter (matchesQuery (buildSearchQuery keyword page limit))).length
    ∧ (search render store keyword page limit).data
        = (((sortRecords (buildSearchQuery keyword page limit)
              (store.filter (matchesQuery (buildSearchQuery keyword page limit)))).drop
            ((page - 1) * limit)).take limit).map (formatBusinessInfoDates render)
    ∧ (search render store keyword).page = 1
    ∧ (search render store keyword).limit = 10
    ∧ (searchByDateRange render store startDate endDate page limit = Except.ok res →
        res.data.length ≤ limit ∧ res.page = page ∧ res.limit = limit
        ∧ res.total = (store.filter
            (matchesQuery (buildDateRangeQuery startDate endDate page limit))).length
        ∧ res.data = (((sortRecords (buildDateRangeQuery startDate endDate page limit)
              (store.filter
                (matchesQuery (buildDateRangeQuery startDate endDate page limit)))).drop
            ((page - 1) * limit)).take limit).map (formatBusinessInfoDates render)) := by
  refine ⟨?_, rfl, rfl, rfl, rfl, rfl, rfl, ?_⟩
  · have h1 : (search render store keyword page limit).data.length
        = (runQuery store (buildSearchQuery keyword page limit)).1.length := by
      simp [search, formatBusinessInfoArrayDates]
    rw [h1]
    exact runQuery_data_length store _
  · intro hok
    rw [searchByDateRange_ok hok]
    refine ⟨?_, rfl, rfl, rfl, rfl⟩
    have h1 : (dateRangeResult render store startDate endDate page limit).data.length
        = (runQuery store (buildDateRangeQuery startDate endDate page limit)).1.length := by
      simp [dateRangeResult, formatBusinessInfoArrayDates]
    rw [h1]
    exact runQuery_data_length store _

theorem claim_C4_pagination_witness :
    1 ≤ 2 ∧ 1 ≤ 1 ∧ (search id [sampleA, sampleC] "" 2 1).data.length ≤ 1 :=
  ⟨by decide, by decide,
    (claim_C4_pagination id [sampleA, sampleC] "" "2024-01-01" "2024-01-02" 2 1
      ⟨[], 0, 0, 0⟩ (by decide) (by decide)).1⟩

/-- C5: `search` returns its data ascending by `businessName`; a successful
`searchByDateRange` returns records descending by `createdAt` (stated on the
pre-format rows, since the formatter rewrites the timestamp fields). -/
theorem claim_C5_ordering (render : String → String) (store : List BusinessInfo)
    (keyword startDate endDate : String) (page limit : Nat) (res : SearchResult) :
    ((search render store keyword page limit).data).Pairwise
      (fun a b => strLe a.businessName b.businessName = true)
    ∧ (searchByDateRange render store startDate endDate page limit = Except.ok res →
        ∃ rows : List BusinessInfo, res.data = rows.map (formatBusinessInfoDates render)
          ∧ rows.Pairwise (fun a b => strLe b.createdAt a.createdAt = true)) := by
  constructor
  · have hp := pairwise_runQuery_data store (buildSearchQuery keyword page limit)
    have hdata : (search render store keyword page limit).data
        = (runQuery store (buildSearchQuery keyword page limit)).1.map
            (formatBusinessInfoDates render) := rfl
    rw [hdata, List.pairwise_map]
    exact hp.imp fun hab => hab
  · intro hok
    rw [searchByDateRange_ok hok]
    refine ⟨(runQuery store (buildDateRangeQuery startDate endDate page limit)).1, rfl, ?_⟩
    have hp := pairwise_runQuery_data store (buildDateRangeQuery startDate endDate page limit)
    exact hp.imp fun hab => hab

theorem claim_C5_ordering_witness :
    ((search id [sampleC, sampleA] "" 1 10).data).Pairwise
      (fun a b => strLe a.businessName b.businessName = true) :=
  (claim_C5_ordering id [sampleC, sampleA] "" "2024-01-01" "2024-01-02" 1 10 ⟨[], 0, 0, 0⟩).1

/-- C6: for pattern-valid start and end dates (mixed separators included),
`searchByDateRange` succeeds and filters to exactly the non-deleted records
whose `createdAt` lies between the two endpoints inclusive, each date string
first converted to a normalized instant string (for example
`2024-01-01` becomes `2024-01-01T00:00:00.000Z`). -/
theorem claim_C6_date_range_semantics (render : String → String) (store : List BusinessInfo)
    (startDate endDate : String) (page limit : Nat)
    (hs : datePattern startDate = true) (he : datePattern endDate = true) :
    searchByDateRange render store startDate endDate page limit
      = Except.ok (dateRangeResult render store startDate endDate page limit)
    ∧ (∀ r : BusinessInfo, matchesQuery (buildDateRangeQuery startDate endDate page limit) r
        = (!r.isDeleted && strLe (toISOString startDate) r.createdAt
            && strLe r.createdAt (toISOString endDate)))
    ∧ (dateRangeResult render store startDate endDate page limit).total
        = (store.filter fun r => !r.isDeleted && strLe (toISOString startDate) r.createdAt
            && strLe r.createdAt (toISOString endDate)).length
    ∧ (∀ r : BusinessInfo, r ∈ (dateRangeResult render store startDate endDate page limit).data →
        ∃ r0 : BusinessInfo, r0 ∈ store ∧ r0.isDeleted = false
          ∧ strLe (toISOString startDate) r0.createdAt = true
          ∧ strLe r0.createdAt (toISOString endDate) = true
          ∧ r = formatBusinessInfoDates render r0)
    ∧ toISOString "2024-01-01" = "2024-01-01T00:00:00.000Z" := by
  have hfilter : store.filter (matchesQuery (buildDateRangeQuery startDate endDate page limit))
      = store.filter fun r => !r.isDeleted && strLe (toISOString startDate) r.createdAt
          && strLe r.createdAt (toISOString endDate) :=
    List.filter_congr fun r _ => matchesQuery_buildDateRangeQuery startDate endDate page limit r
  refine ⟨?_, matchesQuery_buildDateRangeQuery startDate endDate page limit, ?_, ?_, rfl⟩
  · unfold searchByDateRange validateDateRange
    rw [hs, he]
    simp
  · exact congrArg List.length hfilter
  · intro r hr
    have hdata : (dateRangeResult render store startDate endDate page limit).data
        = (runQuery store (buildDateRangeQuery startDate endDate page limit)).1.map
            (formatBusinessInfoDates render) := rfl
    rw [hdata] at hr
    rcases List.mem_map.mp hr with ⟨r0, hr0, rfl⟩
    rcases mem_runQuery_data hr0 with ⟨hmem, hmatch⟩
    rw [matchesQuery_buildDateRangeQuery] at hmatch
    simp only [Bool.and_eq_true] at hmatch
    rcases hmatch with ⟨⟨h1, h2⟩, h3⟩
    exact ⟨r0, hmem, by simpa using h1, h2, h3, rfl⟩

theorem claim_C6_date_range_semantics_witness :
    datePattern "2024-01-01" = true ∧ datePattern "2024/01/31" = true
    ∧ searchByDateRange id [sampleA, sampleB, sampleC] "2024-01-01" "2024/01/31" 1 10
        = Except.ok (dateRangeResult id [sampleA, sampleB, sampleC] "2024-01-01" "2024/01/31" 1 10) :=
  ⟨rfl, rfl,
    (claim_C6_date_range_semantics id [sampleA, sampleB, sampleC]
      "2024-01-01" "2024/01/31" 1 10 rfl rfl).1⟩

/-- C7: `search` accepts any keyword without a validation error (it is total
in the model); with the empty keyword the pattern becomes `%%`, which matches
every value, so the match set is exactly the non-deleted records, returned
paginated. -/
theorem claim_C7_empty_keyword (render : String → String) (store : List BusinessInfo)
    (page limit : Nat) :
    (∀ v : String, likeMatches ("%" ++ trimString "" ++ "%") v = true)
    ∧ (∀ r : BusinessInfo, matchesQuery (buildSearchQuery "" page limit) r = !r.isDeleted)
    ∧ (search render store "" page limit).total
        = (store.filter fun r => !r.isDeleted).length
    ∧ (search render store "" page limit).data
        = (((sortRecords (buildSearchQuery "" page limit)
              (store.filter fun r => !r.isDeleted)).drop
            ((page - 1) * limit)).take limit).map (formatBusinessInfoDates render) := by
  have hlike : ∀ v : String, likeMatches ("%" ++ trimString "" ++ "%") v = true :=
    fun v => likeMatch_double_star v.toList
  have hmatch : ∀ r : BusinessInfo,
      matchesQuery (buildSearchQuery "" page limit) r = !r.isDeleted := by
    intro r
    rw [matchesQuery_buildSearchQuery]
    have hany : (searchOrGroup (trimString "")).any (evalOrCond r) = true := by
      apply List.any_eq_true.mpr
      exact ⟨OrCond.like "businessName" ("%" ++ trimString "" ++ "%"), by decide, hlike _⟩
    rw [hany, Bool.and_true]
  have hfilter : store.filter (matchesQuery (buildSearchQuery "" page limit))
      = store.filter fun r => !r.isDeleted :=
    List.filter_congr fun r _ => hmatch r
  refine ⟨hlike, hmatch, congrArg List.length hfilter, ?_⟩
  have hdata : (search render store "" page limit).data
      = (((sortRecords (buildSearchQuery "" page limit)
            (store.filter (matchesQuery (buildSearchQuery "" page limit)))).drop
          ((page - 1) * limit)).take limit).map (formatBusinessInfoDates render) := rfl
  rw [hdata, hfilter]

/-- C8: the Date Formatter is applied uniformly to every record of the data
array of both operations, rewrites exactly `createdAt` and `updatedAt`
through the rendering function, and leaves every other field unchanged. -/
theorem claim_C8_formatter_frame (render : String → String) (store : List BusinessInfo)
    (keyword startDate endDate : String) (page limit : Nat) (res : SearchResult)
    (r : BusinessInfo) :
    (formatBusinessInfoDates render r).createdAt = render r.createdAt
    ∧ (formatBusinessInfoDates render r).updatedAt = render r.updatedAt
    ∧ (formatBusinessInfoDates render r).businessName = r.businessName
    ∧ (formatBusinessInfoDates render r).businessNumber = r.businessNumber
    ∧ (formatBusinessInfoDates render r).businessType = r.businessType
    ∧ (formatBusinessInfoDates render r).businessCeo = r.businessCeo
    ∧ (formatBusinessInfoDates render r).businessItem = r.businessItem
    ∧ (formatBusinessInfoDates render r).corporateRegistrationNumber
        = r.corporateRegistrationNumber
    ∧ (formatBusinessInfoDates render r).businessTel = r.businessTel
    ∧ (formatBusinessInfoDates render r).businessMobile = r.businessMobile
    ∧ (formatBusinessInfoDates render r).businessCeoEmail = r.businessCeoEmail
    ∧ (formatBusinessInfoDates render r).businessFax = r.businessFax
    ∧ (formatBusinessInfoDates render r).businessZipcode = r.businessZipcode
    ∧ (formatBusinessInfoDates render r).businessAddress = r.businessAddress
    ∧ (formatBusinessInfoDates render r).businessAddressDetail = r.businessAddressDetail
    ∧ (formatBusinessInfoDates render r).isDeleted = r.isDeleted
    ∧ (search render store keyword page limit).data
        = (runQuery store (buildSearchQuery keyword page limit)).1.map
            (formatBusinessInfoDates render)
    ∧ (searchByDateRange render store startDate endDate page limit = Except.ok res →
        res.data = (runQuery store (buildDateRangeQuery startDate endDate page limit)).1.map
            (formatBusinessInfoDates render)) := by
  refine ⟨rfl, rfl, rfl, rfl, rfl, rfl, rfl, rfl, rfl, rfl, rfl, rfl, rfl, rfl, rfl, rfl, rfl, ?_⟩
  intro hok
  rw [searchByDateRange_ok hok]
  rfl

theorem claim_C8_formatter_frame_witness :
    searchByDateRange id [sampleA] "2024-01-01" "2024-01-31" 1 10
        = Except.ok (dateRangeResult id [sampleA] "2024-01-01" "2024-01-31" 1 10)
    ∧ (dateRangeResult id [sampleA] "2024-01-01" "2024-01-31" 1 10).data
        = (runQuery [sampleA] (buildDateRangeQuery "2024-01-01" "2024-01-31" 1 10)).1.map
            (formatBusinessInfoDates id) :=
  ⟨by rfl,
    (claim_C8_formatter_frame id [sampleA] "" "2024-01-01" "2024-01-31" 1 10
      (dateRangeResult id [sampleA] "2024-01-01" "2024-01-31" 1 10) sampleA).2.2.2.2.2.2.2.2.2.2.2.2.2.2.2.2.2
      (by rfl)⟩

/-- C9: a reversed range (start instant after end instant) with pattern-valid
dates passes validation, raises no error, and returns an empty data array and
a zero total, since no `createdAt` can satisfy both bounds. -/
theorem claim_C9_reversed_range (render : String → String) (store : List BusinessInfo)
    (startDate endDate : String) (page limit : Nat)
    (hs : datePattern startDate = true) (he : datePattern endDate = true)
    (hrev : strLe (toISOString startDate) (toISOString endDate) = false) :
    searchByDateRange render store startDate endDate page limit
      = Except.ok (dateRangeResult render store startDate endDate page limit)
    ∧ (dateRangeResult render store startDate endDate page limit).data = []
    ∧ (dateRangeResult render store startDate endDate page limit).total = 0 := by
  have hfilter : store.filter (matchesQuery (buildDateRangeQuery startDate endDate page limit))
      = [] := by
    apply List.filter_eq_nil_iff.mpr
    intro a _
    simp only [matchesQuery_buildDateRangeQuery]
    intro hcontra
    simp only [Bool.and_eq_true] at hcontra
    rcases hcontra with ⟨⟨_, h2⟩, h3⟩
    exact absurd (strLe_trans h2 h3) (by simp [hrev])
  refine ⟨?_, ?_, ?_⟩
  · unfold searchByDateRange validateDateRange
    rw [hs, he]
    simp
  · have hdata : (dateRangeResult render store startDate endDate page limit).data
        = (((sortRecords (buildDateRangeQuery startDate endDate page limit)
              (store.filter
                (matchesQuery (buildDateRangeQuery startDate endDate page limit)))).drop
            ((page - 1) * limit)).take limit).map (formatBusinessInfoDates render) := rfl
    rw [hdata, hfilter]
    simp [sortRecords]
  · have htot : (dateRangeResult render store startDate endDate page limit).total
        = (store.filter
            (matchesQuery (buildDateRangeQuery startDate endDate page limit))).length := rfl
    rw [htot, hfilter]
    rfl

theorem claim_C9_reversed_range_witness :
    strLe (toISOString "2024-02-01") (toISOString "2024-01-01") = false
    ∧ (dateRangeResult id [sampleA] "2024-02-01" "2024-01-01" 1 10).data = [] :=
  ⟨rfl, (claim_C9_reversed_range id [sampleA] "2024-02-01" "2024-01-01" 1 10 rfl rfl rfl).2.1⟩

theorem whitespace_not_digit {c : Char} (hw : c.isWhitespace = true) : c.isDigit = false := by
  simp only [Char.isWhitespace, Bool.or_eq_true, decide_eq_true_eq] at hw
  rcases hw with ((h | h) | h) | h <;> subst h <;> decide

theorem getLast?_append_right {l1 l2 : List Char} (h : l2 ≠ []) :
    (l1 ++ l2).getLast? = l2.getLast? := by
  rw [List.getLast?_append]
  cases hg : l2.getLast? with
  | none => exact absurd (List.getLast?_eq_none_iff.mp hg) h
  | some c => rfl

theorem datePattern_length4 {s : String} (h : datePattern s = true) :
    (s.toList.takeWhile Char.isDigit).length = 4 := by
  simp only [datePattern, parseDateParts] at h
  split at h
  next s1 r2 hdrop =>
    split at h
    next hc1 =>
      simp only [Bool.and_eq_true, beq_iff_eq] at hc1
      exact hc1.1
    next hc1 => simp at h
  next hdrop => simp at h

theorem datePattern_head_digit {s : String} (h : datePattern s = true) :
    s.toList.head?.any Char.isDigit = true := by
  have h4 := datePattern_length4 h
  cases hcs : s.toList with
  | nil => rw [hcs] at h4; simp at h4
  | cons a as =>
    rw [hcs] at h4
    by_cases ha : Char.isDigit a = true
    · simp [ha]
    · rw [List.takeWhile_cons_of_neg ha] at h4; simp at h4

theorem datePattern_last_digit {s : String} (h : datePattern s = true) :
    s.toList.getLast?.any Char.isDigit = true := by
  simp only [datePattern, parseDateParts] at h
  split at h
  case h_2 hdrop1 => simp at h
  case h_1 s1 r2 hdrop1 =>
    split at h
    case isFalse hc1 => simp at h
    case isTrue hc1 =>
      split at h
      case h_2 hdrop2 => simp at h
      case h_1 s2 r4 hdrop2 =>
        split at h
        case isFalse hc2 => simp at h
        case isTrue hc2 =>
          split at h
          case isFalse hc3 => simp at h
          case isTrue hc3 =>
            simp only [Bool.and_eq_true, Bool.or_eq_true, beq_iff_eq,
              List.isEmpty_eq_true] at hc3
            rcases hc3 with ⟨hdlen, hr5⟩
            have hr4eq : r4 = r4.takeWhile Char.isDigit := by
              conv_lhs => rw [← List.takeWhile_append_dropWhile (p := Char.isDigit) (l := r4)]
              rw [hr5, List.append_nil]
            have hr4ne : r4 ≠ [] := by
              intro hnil
              rw [hnil] at hdlen
              simp at hdlen
            have hcs : s.toList = s.toList.takeWhile Char.isDigit
                ++ (s1 :: (r2.takeWhile Char.isDigit ++ (s2 :: r4))) := by
              conv_lhs => rw [← List.takeWhile_append_dropWhile (p := Char.isDigit) (l := s.toList)]
              rw [hdrop1]
              congr 2
              conv_lhs => rw [← List.takeWhile_append_dropWhile (p := Char.isDigit) (l := r2)]
              rw [hdrop2]
            rcases hg : r4.getLast? with _ | c
            · exact absurd (List.getLast?_eq_none_iff.mp hg) hr4ne
            have hcdig : c.isDigit = true := by
              have hmem : c ∈ r4 := List.mem_of_getLast?_eq_some hg
              rw [hr4eq] at hmem
              exact List.mem_takeWhile_imp hmem
            have hlast : s.toList.getLast? = some c := by
              rw [hcs]
              show ((s.toList.takeWhile Char.isDigit)
                ++ ([s1] ++ (r2.takeWhile Char.isDigit ++ ([s2] ++ r4)))).getLast? = some c
              rw [@getLast?_append_right (s.toList.takeWhile Char.isDigit) _ (by simp),
                @getLast?_append_right [s1] _ (by simp),
                @getLast?_append_right (r2.takeWhile Char.isDigit) _ (by simp),
                @getLast?_append_right [s2] _ hr4ne, hg]
            rw [hlast]
            simpa using hcdig

theorem datePattern_edge_whitespace {s : String} (hw : hasEdgeWhitespace s = true) :
    datePattern s = false := by
  cases hpat : datePattern s
  · rfl
  exfalso
  have hh := datePattern_head_digit hpat
  have hl := datePattern_last_digit hpat
  simp only [hasEdgeWhitespace, Bool.or_eq_true] at hw
  rcases hw with hw | hw
  · cases hhead : s.toList.head? with
    | none => rw [hhead] at hw; simp at hw
    | some c =>
      rw [hhead] at hw hh
      simp only [Option.any_some] at hw hh
      rw [whitespace_not_digit hw] at hh
      exact Bool.false_ne_true hh
  · cases hlastc : s.toList.getLast? with
    | none => rw [hlastc] at hw; simp at hw
    | some c =>
      rw [hlastc] at hw hl
      simp only [Option.any_some] at hw hl
      rw [whitespace_not_digit hw] at hl
      exact Bool.false_ne_true hl

/-- C10: `searchByDateRange` applies the date pattern to its arguments as
given, without trimming: a date string with leading or trailing whitespace
always fails validation (its trimmed form notwithstanding), while `search`
trims its keyword, so a whitespace-padded keyword builds the same query as
the trimmed one. -/
theorem claim_C10_no_date_trimming (render : String → String) (store : List BusinessInfo)
    (startDate endDate : String) (page limit : Nat)
    (h : hasEdgeWhitespace startDate = true ∨ hasEdgeWhitespace endDate = true) :
    searchByDateRange render store startDate endDate page limit
      = Except.error badRequestMessage
    ∧ datePattern (trimString " 2024-01-01 ") = true
    ∧ buildSearchQuery " 2024-01-01 " page limit = buildSearchQuery "2024-01-01" page limit := by
  refine ⟨?_, rfl, rfl⟩
  unfold searchByDateRange validateDateRange
  rcases h with h | h
  · rw [datePattern_edge_whitespace h]
    simp
  · rw [datePattern_edge_whitespace h]
    cases hs : datePattern startDate <;> simp

theorem claim_C10_no_date_trimming_witness :
    hasEdgeWhitespace " 2024-01-01" = true
    ∧ searchByDateRange id [sampleA] " 2024-01-01" "2024-01-31" 1 10
        = Except.error badRequestMessage :=
  ⟨rfl,
    (claim_C10_no_date_trimming id [sampleA] " 2024-01-01" "2024-01-31" 1 10 (Or.inl rfl)).1⟩

end BusinessInfoSearch
